import Mathlib

/-!
Shallow embedding of the herd projection and management system
(`projection_model.py`, `db_manager.py`).

Numbers that the Python code holds in IEEE doubles are modelled as exact
rationals (`ℚ`); `np.round` is modelled by its documented round-half-to-even
rule on the exact value.  Python `int`s are `ℤ`.  Fallible numpy/pandas
operations (shape mismatches) are modelled with `Except`; the IEEE `nan`
produced by `np.mean` on an empty array is modelled as `none : Option ℚ`.
-/

/-- Rounding rule of `np.round`: round to the nearest integer, ties to the
even neighbour (banker's rounding), applied to the exact rational value. -/
def npRound (x : ℚ) : ℤ :=
  let f := ⌊x⌋
  let r := x - f
  if r < 1/2 then f
  else if 1/2 < r then f + 1
  else if f % 2 = 0 then f else f + 1

/-- Body of the `for n in range(1, years + 1)` loop of `project_herd_yearly`:
from last year's pair `(B[-1], Y[-1])` compute `(next_B, next_Y)`.
`birth_n = C * B[-1]`, `next_B_raw = B[-1]*(1-m) + Y[-1]*(1-m)`,
`next_Y_raw = birth_n * (1-m)`, both rounded with `np.round`. -/
def stepBY (C m : ℚ) (s : ℤ × ℤ) : ℤ × ℤ :=
  let birth_n : ℚ := C * (s.1 : ℚ)
  let next_B_raw : ℚ := (s.1 : ℚ) * (1 - m) + (s.2 : ℚ) * (1 - m)
  let next_Y_raw : ℚ := birth_n * (1 - m)
  (npRound next_B_raw, npRound next_Y_raw)

/-- The pair `(B[n], Y[n])` held in the lists `B`, `Y` after `n` loop
iterations of `project_herd_yearly` (the loop only ever reads the last
entries `B[-1]`, `Y[-1]`). -/
def herdState (B0 Y0 : ℤ) (C m : ℚ) : ℕ → ℤ × ℤ
  | 0 => (B0, Y0)
  | n + 1 => stepBY C m (herdState B0 Y0 C m n)

/-- One row of the result `DataFrame` of `project_herd_yearly`: columns
`Year`, `Breeders (Projected)`, `Juveniles (Projected)`,
`Total Females (Projected)`. -/
structure HerdRow where
  year : ℕ
  breeders : ℤ
  juveniles : ℤ
  totalFemales : ℤ
deriving DecidableEq

/-- Failure raised by the `pd.DataFrame` constructor when the column arrays
have different lengths (ValueError: all arrays must be of the same length). -/
inductive PandasError where
  | arrayLengthMismatch
deriving DecidableEq

/-- The function `project_herd_yearly(B0, Y0, C, m, years)`.  The loop runs
`max 0 years` times (Python `range(1, years+1)`), so the lists `B`, `Y` have
`years.toNat + 1` entries, while the `Year` column is `range(years + 1)`,
of length `(years+1).toNat`; `pd.DataFrame` demands the columns agree, and the
`Total Females` column is `np.array(B) + np.array(Y)`. -/
def project_herd_yearly (B0 Y0 : ℤ) (C m : ℚ) (years : ℤ) :
    Except PandasError (List HerdRow) :=
  let yearCol := List.range (years + 1).toNat
  if yearCol.length = years.toNat + 1 then
    Except.ok (yearCol.map fun n =>
      let s := herdState B0 Y0 C m n
      ⟨n, s.1, s.2, s.1 + s.2⟩)
  else
    Except.error PandasError.arrayLengthMismatch

deriving instance DecidableEq for Except

example : herdState 20 10 (1/2) (1/20) 1 = (28, 10) := by
  show stepBY (1/2) (1/20) (herdState 20 10 (1/2) (1/20) 0) = (28, 10)
  show stepBY (1/2) (1/20) (20, 10) = (28, 10)
  simp only [stepBY, npRound]
  norm_num

example : project_herd_yearly 20 10 (1/2) (1/20) 1 =
    Except.ok [⟨0, 20, 10, 30⟩, ⟨1, 28, 10, 38⟩] := by
  simp only [project_herd_yearly]
  norm_num [show Int.toNat 2 = 2 from rfl, List.range_succ, herdState, stepBY, npRound]

example : project_herd_yearly (-5) 10 (1/2) (1/20) 1 =
    Except.ok [⟨0, -5, 10, 5⟩, ⟨1, 5, -2, 3⟩] := by
  simp only [project_herd_yearly]
  norm_num [show Int.toNat 2 = 2 from rfl, List.range_succ, herdState, stepBY, npRound]

example : project_herd_yearly 20 10 (1/2) (1/20) (-1) =
    Except.error PandasError.arrayLengthMismatch := by
  simp only [project_herd_yearly]
  norm_num

/-- Failures numpy raises in `calculate_error`: a ValueError when two
operand shapes cannot be broadcast together, and an IndexError when a
boolean index does not match the length of the indexed array. -/
inductive NumpyError where
  | broadcastMismatch
  | maskLengthMismatch
deriving DecidableEq

/-- Elementwise subtraction of two 1-d numpy arrays, with numpy's
broadcasting of a length-1 operand; any other length disagreement raises
ValueError (operands could not be broadcast together). -/
def npSub (p a : List ℚ) : Except NumpyError (List ℚ) :=
  if p.length = a.length then Except.ok (List.zipWith (fun x y => x - y) p a)
  else if a.length = 1 then Except.ok (p.map (fun x => x - a.headI))
  else if p.length = 1 then Except.ok (a.map (fun y => p.headI - y))
  else Except.error NumpyError.broadcastMismatch

/-- The arithmetic mean `np.mean`; on an empty array numpy yields `nan`
(modelled as `none`). -/
def npMean (l : List ℚ) : Option ℚ :=
  if l.isEmpty then none else some (l.sum / l.length)

/-- Boolean-mask indexing `arr[mask]` of a 1-d numpy array: keeps the
entries at `true` positions; a mask of a different length raises IndexError. -/
def npMaskIndex (arr : List ℚ) (mask : List Bool) : Except NumpyError (List ℚ) :=
  if arr.length = mask.length then
    Except.ok (((arr.zip mask).filter (fun t => t.2)).map Prod.fst)
  else Except.error NumpyError.maskLengthMismatch

/-- The function `calculate_error(projected_counts, actual_counts)`.
`mae = np.mean(np.abs(projected - actual))`; `valid_mask = actual != 0`;
if no mask entry holds the result is `(mae, 0.0)`; otherwise
`mape = np.mean(np.abs(projected[valid_mask] - actual[valid_mask]) / actual[valid_mask]) * 100`
(the two masked arrays always share a shape, so that division is
elementwise). -/
def calculate_error (projected actual : List ℚ) :
    Except NumpyError (Option ℚ × Option ℚ) :=
  match npSub projected actual with
  | Except.error e => Except.error e
  | Except.ok diffs =>
    let mae := npMean (diffs.map (fun x => |x|))
    let valid_mask := actual.map (fun x => decide (x ≠ 0))
    if (valid_mask.any id) = false then
      Except.ok (mae, some 0)
    else
      match npMaskIndex projected valid_mask with
      | Except.error e => Except.error e
      | Except.ok pv =>
        match npMaskIndex actual valid_mask with
        | Except.error e => Except.error e
        | Except.ok av =>
          match npSub pv av with
          | Except.error e => Except.error e
          | Except.ok sub2 =>
            let percentage_errors := List.zipWith (fun d a => |d| / a) sub2 av
            Except.ok (mae, (npMean percentage_errors).map (fun x => x * 100))

example : calculate_error [10, 20] [8, 22] = Except.ok (some 2, some (375/22)) := by
  simp [calculate_error, npSub, npMean, npMaskIndex]
  norm_num

example : calculate_error [1, 2, 3] [1, 2] = Except.error NumpyError.broadcastMismatch := by
  simp [calculate_error, npSub]

example : calculate_error [1, 2, 3] [0] = Except.ok (some 2, some 0) := by
  simp [calculate_error, npSub, npMean, npMaskIndex]
  norm_num

example : calculate_error [] [] = Except.ok (none, some 0) := by
  simp [calculate_error, npSub, npMean]

example : calculate_error [5, 5, 5] [0, 0, 0] = Except.ok (some 5, some 0) := by
  simp [calculate_error, npSub, npMean, npMaskIndex]
  norm_num

/-- One row of the `cows` table of `db_manager.py`
(`cow_id TEXT PRIMARY KEY, sex, birth_date, status, mother_id, breed`;
the schema comments the status column with the values Active, Sold, Dead). -/
structure Cow where
  cow_id : String
  sex : String
  birth_date : String
  status : String
  mother_id : Option String
  breed : String
deriving DecidableEq

/-- One row of the `events` table of `db_manager.py` (the autoincrement
`event_id` is the position in the list). -/
structure CowEvent where
  cow_id : String
  event_type : String
  event_date : String
  details : String
deriving DecidableEq

/-- The two tables of the SQLite database that `add_new_cow` and
`log_event` touch. -/
structure CattleDB where
  cows : List Cow
  events : List CowEvent
deriving DecidableEq

/-- The status values the `cows` schema documents
(`status TEXT NOT NULL, -- e.g., Active, Sold, Dead`). -/
def allowedStatuses : List String := ["Active", "Sold", "Dead"]

/-- The function `add_new_cow(cow_id, sex, birth_date, mother_id, breed)`:
INSERT a row with status 'Active'; a duplicate `cow_id` violates the
PRIMARY KEY, sqlite3 raises IntegrityError before anything is committed,
and the function returns False. -/
def add_new_cow (db : CattleDB) (cow_id sex birth_date : String)
    (mother_id : Option String) (breed : String) : CattleDB × Bool :=
  if db.cows.any (fun c => c.cow_id = cow_id) then
    (db, false)
  else
    ({ db with cows := db.cows ++ [⟨cow_id, sex, birth_date, "Active", mother_id, breed⟩] },
      true)

/-- The function `log_event(cow_id, event_type, details)`: INSERT the event
row (with the current date, an input here), then, when `event_type` is
'Death' or 'Sale', run `UPDATE cows SET status = event_type WHERE cow_id = cow_id`. -/
def log_event (db : CattleDB) (cow_id event_type event_date details : String) :
    CattleDB :=
  let db1 : CattleDB := { db with events := db.events ++ [⟨cow_id, event_type, event_date, details⟩] }
  if event_type = "Death" ∨ event_type = "Sale" then
    { db1 with cows := db1.cows.map (fun c =>
        if c.cow_id = cow_id then { c with status := event_type } else c) }
  else db1

example :
    (log_event ⟨[⟨"UEMBU-001", "Female", "2024-01-01", "Active", none, "N/A"⟩], []⟩
      "UEMBU-001" "Death" "2025-01-01" "").cows.map Cow.status = ["Death"] := by decide

example : "Death" ∉ allowedStatuses ∧ "Sale" ∉ allowedStatuses := by decide

/-! ### Helper lemmas -/

/-- A successful run of `project_herd_yearly` forces `0 ≤ years` and fixes
the rows: row `n` carries year `n`, the loop state `(B[n], Y[n])`, and the
derived total. -/
theorem project_rows_eq (B0 Y0 : ℤ) (C m : ℚ) (years : ℤ) (rows : List HerdRow)
    (hok : project_herd_yearly B0 Y0 C m years = Except.ok rows) :
    0 ≤ years ∧ rows = (List.range (years.toNat + 1)).map (fun n =>
      let s := herdState B0 Y0 C m n
      ⟨n, s.1, s.2, s.1 + s.2⟩) := by
  unfold project_herd_yearly at hok
  simp only [List.length_range] at hok
  by_cases h : (years + 1).toNat = years.toNat + 1
  · rw [if_pos h] at hok
    rw [h] at hok
    injection hok with h2
    exact ⟨by omega, h2.symm⟩
  · rw [if_neg h] at hok
    exact absurd hok (by simp)

/-- For a non-negative horizon, `project_herd_yearly` succeeds with the
canonical row list. -/
theorem project_ok_of_nonneg (B0 Y0 : ℤ) (C m : ℚ) (years : ℤ) (hy : 0 ≤ years) :
    project_herd_yearly B0 Y0 C m years =
      Except.ok ((List.range (years.toNat + 1)).map (fun n =>
        let s := herdState B0 Y0 C m n
        ⟨n, s.1, s.2, s.1 + s.2⟩)) := by
  unfold project_herd_yearly
  have h : (years + 1).toNat = years.toNat + 1 := by omega
  simp only [List.length_range, h]
  simp

/-! ### C2: horizon length, initial entry, zero horizon -/

/-- C2: a series returned by `project_herd_yearly` for `years ≥ 0` has exactly
`years + 1` entries, its entry at index 0 is the initial state `(B0, Y0)` with
its derived total, and for `years = 0` the whole series is that single entry. -/
theorem project_horizon_length (B0 Y0 : ℤ) (C m : ℚ) (years : ℤ) (hy : 0 ≤ years)
    (rows : List HerdRow)
    (hok : project_herd_yearly B0 Y0 C m years = Except.ok rows) :
    rows.length = years.toNat + 1 ∧
    rows.get? 0 = some ⟨0, B0, Y0, B0 + Y0⟩ ∧
    (years = 0 → rows = [⟨0, B0, Y0, B0 + Y0⟩]) := by
  obtain ⟨-, hrow⟩ := project_rows_eq B0 Y0 C m years rows hok
  subst hrow
  refine ⟨by simp, ?_, ?_⟩
  · rw [List.get?_map, List.get?_range (by omega)]
    rfl
  · intro h0
    subst h0
    rfl

/-- Witness for C2 at `B0 = 20, Y0 = 10, C = 1/2, m = 1/20, years = 0`. -/
theorem project_horizon_length_witness :
    ∃ rows, project_herd_yearly 20 10 (1/2) (1/20) 0 = Except.ok rows ∧
      rows.length = 1 ∧ rows.get? 0 = some ⟨0, 20, 10, 30⟩ ∧
      rows = [⟨0, 20, 10, 30⟩] := by
  have hok : project_herd_yearly 20 10 (1/2) (1/20) 0 =
      Except.ok [⟨0, 20, 10, 30⟩] := by
    simp only [project_herd_yearly]
    norm_num [show Int.toNat 1 = 1 from rfl, List.range_succ, herdState]
  have h := project_horizon_length 20 10 (1/2) (1/20) 0 (by norm_num) _ hok
  exact ⟨_, hok, by simpa using h.1, h.2.1, h.2.2 rfl⟩

/-! ### C5: input validation -/

/-- Counterexample to C5 as stated: a negative breeder count and a mortality
of 1 are both accepted numerically, and `project_herd_yearly` returns a
series instead of failing with any InvalidParameter error. -/
theorem project_invalid_accepted_counterexample :
    ((-5 : ℤ) < 0 ∧ project_herd_yearly (-5) 10 (1/2) (1/20) 1 =
      Except.ok [⟨0, -5, 10, 5⟩, ⟨1, 5, -2, 3⟩]) ∧
    ((1 : ℚ) ≤ 1 ∧ project_herd_yearly 20 10 (1/2) 1 1 =
      Except.ok [⟨0, 20, 10, 30⟩, ⟨1, 0, 0, 0⟩]) := by
  refine ⟨⟨by norm_num, ?_⟩, ⟨le_refl 1, ?_⟩⟩ <;>
  · simp only [project_herd_yearly]
    norm_num [show Int.toNat 2 = 2 from rfl, List.range_succ, herdState, stepBY, npRound]

/-- C5 amended: `project_herd_yearly` performs no input validation at all.
It returns a numeric series for every breeder count, juvenile count,
fertility and mortality value; the only failing inputs are negative `years`
values, and those fail with a pandas array-length ValueError (the `Year`
column is shorter than the count columns), not with a typed
InvalidParameter error. -/
theorem project_no_validation (B0 Y0 : ℤ) (C m : ℚ) (years : ℤ) :
    (∃ rows, project_herd_yearly B0 Y0 C m years = Except.ok rows) ↔ 0 ≤ years := by
  constructor
  · rintro ⟨rows, hok⟩
    exact (project_rows_eq B0 Y0 C m years rows hok).1
  · intro hy
    exact ⟨_, project_ok_of_nonneg B0 Y0 C m years hy⟩

/-- Witness for C5's amended theorem: with mortality 1 (an input the claim
calls invalid) and years = 1 the projection still succeeds, and with
years = -1 it fails. -/
theorem project_no_validation_witness :
    (∃ rows, project_herd_yearly 20 10 (1/2) 1 1 = Except.ok rows) ∧
    ¬ (∃ rows, project_herd_yearly 20 10 (1/2) (1/20) (-1) = Except.ok rows) := by
  constructor
  · exact (project_no_validation 20 10 (1/2) 1 1).mpr (by norm_num)
  · intro h
    have := (project_no_validation 20 10 (1/2) (1/20) (-1)).mp h
    norm_num at this

/-! ### C8: determinism -/

/-- C8: `project_herd_yearly` is a pure function of its five arguments —
two calls with identical initial state, parameters and horizon return
identical series (no hidden state, no randomness in the model). -/
theorem project_deterministic (B0 Y0 B0' Y0' : ℤ) (C m C' m' : ℚ)
    (years years' : ℤ) (hB : B0 = B0') (hY : Y0 = Y0') (hC : C = C')
    (hm : m = m') (hy : years = years') :
    project_herd_yearly B0 Y0 C m years = project_herd_yearly B0' Y0' C' m' years' := by
  subst hB; subst hY; subst hC; subst hm; subst hy; rfl

/-- Witness for C8 at a concrete argument tuple. -/
theorem project_deterministic_witness :
    project_herd_yearly 20 10 (1/2) (1/20) 10 =
      project_herd_yearly 20 10 (1/2) (1/20) 10 :=
  project_deterministic 20 10 20 10 (1/2) (1/20) (1/2) (1/20) 10 10
    rfl rfl rfl rfl rfl

/-! ### C1: the yearly recurrence -/

/-- Shared concrete evaluation: the literal run of the spec,
`project(B0=20, Y0=10, C=0.5, m=0.05, years=1)`. -/
theorem project_demo_eval : project_herd_yearly 20 10 (1/2) (1/20) 1 =
    Except.ok [⟨0, 20, 10, 30⟩, ⟨1, 28, 10, 38⟩] := by
  simp only [project_herd_yearly]
  norm_num [show Int.toNat 2 = 2 from rfl, List.range_succ, herdState, stepBY, npRound]

/-- C1: every consecutive pair of rows of a series returned by
`project_herd_yearly` satisfies the recurrence
`B[n] = round(B[n-1]*(1-m) + Y[n-1]*(1-m))` and
`Y[n] = round(C*B[n-1]*(1-m))`, with `round` the round-half-to-even rule of
`np.round`. -/
theorem project_recurrence_step (B0 Y0 : ℤ) (C m : ℚ) (years : ℤ)
    (rows : List HerdRow)
    (hok : project_herd_yearly B0 Y0 C m years = Except.ok rows)
    (n : ℕ) (hn : 1 ≤ n) (hle : (n : ℤ) ≤ years)
    (prev cur : HerdRow)
    (hprev : rows.get? (n - 1) = some prev) (hcur : rows.get? n = some cur) :
    cur.breeders = npRound ((prev.breeders : ℚ) * (1 - m) + (prev.juveniles : ℚ) * (1 - m)) ∧
    cur.juveniles = npRound (C * (prev.breeders : ℚ) * (1 - m)) := by
  obtain ⟨hy, hrow⟩ := project_rows_eq B0 Y0 C m years rows hok
  subst hrow
  obtain ⟨k, rfl⟩ : ∃ k, n = k + 1 := ⟨n - 1, by omega⟩
  have hk1 : k + 1 < years.toNat + 1 := by omega
  have hk : k < years.toNat + 1 := by omega
  rw [List.get?_map, List.get?_range hk1] at hcur
  simp only [Nat.add_sub_cancel] at hprev
  rw [List.get?_map, List.get?_range hk] at hprev
  injection hcur with hcur
  injection hprev with hprev
  subst hcur
  subst hprev
  exact ⟨rfl, rfl⟩

/-- Witness for C1: in the literal run `project(20, 10, 0.5, 0.05, 1)` the
year-1 row `(28, 10)` is obtained from the year-0 row `(20, 10)` by the
recurrence, i.e. `28 = round(28.5)` and `10 = round(9.5)` under ties-to-even. -/
theorem project_recurrence_step_witness :
    (⟨1, 28, 10, 38⟩ : HerdRow).breeders =
      npRound (((⟨0, 20, 10, 30⟩ : HerdRow).breeders : ℚ) * (1 - 1/20) +
        ((⟨0, 20, 10, 30⟩ : HerdRow).juveniles : ℚ) * (1 - 1/20)) ∧
    (⟨1, 28, 10, 38⟩ : HerdRow).juveniles =
      npRound ((1/2) * ((⟨0, 20, 10, 30⟩ : HerdRow).breeders : ℚ) * (1 - 1/20)) :=
  project_recurrence_step 20 10 (1/2) (1/20) 1 _ project_demo_eval 1
    (le_refl 1) (by norm_num) ⟨0, 20, 10, 30⟩ ⟨1, 28, 10, 38⟩ rfl rfl

/-! ### C7: non-negativity and the derived total -/

/-- Rounding a non-negative rational with the ties-to-even rule yields a
non-negative integer. -/
theorem npRound_nonneg (x : ℚ) (hx : 0 ≤ x) : 0 ≤ npRound x := by
  have h : 0 ≤ ⌊x⌋ := Int.floor_nonneg.mpr hx
  simp only [npRound]
  split_ifs <;> omega

/-- Both loop accumulators stay non-negative throughout the projection when
the start counts are non-negative, the fertility is non-negative and the
mortality is at most 1. -/
theorem herdState_nonneg (B0 Y0 : ℤ) (C m : ℚ) (hB : 0 ≤ B0) (hY : 0 ≤ Y0)
    (hC : 0 ≤ C) (hm : m ≤ 1) (n : ℕ) :
    0 ≤ (herdState B0 Y0 C m n).1 ∧ 0 ≤ (herdState B0 Y0 C m n).2 := by
  induction n with
  | zero => exact ⟨hB, hY⟩
  | succ k ih =>
    obtain ⟨h1, h2⟩ := ih
    have hs : (0 : ℚ) ≤ 1 - m := by linarith
    have hB1 : (0 : ℚ) ≤ ((herdState B0 Y0 C m k).1 : ℚ) := by exact_mod_cast h1
    have hY1 : (0 : ℚ) ≤ ((herdState B0 Y0 C m k).2 : ℚ) := by exact_mod_cast h2
    constructor
    · show 0 ≤ (stepBY C m (herdState B0 Y0 C m k)).1
      simp only [stepBY]
      exact npRound_nonneg _
        (add_nonneg (mul_nonneg hB1 hs) (mul_nonneg hY1 hs))
    · show 0 ≤ (stepBY C m (herdState B0 Y0 C m k)).2
      simp only [stepBY]
      exact npRound_nonneg _ (mul_nonneg (mul_nonneg hC hB1) hs)

/-- C7: on the valid input domain every row of the returned series has
non-negative breeder and juvenile counts, and its total equals
breeders + juveniles (it is derived, never independent). -/
theorem project_nonneg_total (B0 Y0 : ℤ) (C m : ℚ) (years : ℤ)
    (hB : 0 ≤ B0) (hY : 0 ≤ Y0) (hC0 : 0 < C) (hC1 : C ≤ 1)
    (hm0 : 0 ≤ m) (hm1 : m < 1) (hy : 0 ≤ years)
    (rows : List HerdRow)
    (hok : project_herd_yearly B0 Y0 C m years = Except.ok rows) :
    ∀ row ∈ rows, 0 ≤ row.breeders ∧ 0 ≤ row.juveniles ∧
      row.totalFemales = row.breeders + row.juveniles := by
  obtain ⟨-, hrow⟩ := project_rows_eq B0 Y0 C m years rows hok
  subst hrow
  intro row hmem
  simp only [List.mem_map] at hmem
  obtain ⟨n, -, rfl⟩ := hmem
  obtain ⟨h1, h2⟩ := herdState_nonneg B0 Y0 C m hB hY (le_of_lt hC0) (le_of_lt hm1) n
  exact ⟨h1, h2, rfl⟩

/-- Witness for C7 at the year-1 row of the literal run
`project(20, 10, 0.5, 0.05, 1)`. -/
theorem project_nonneg_total_witness :
    0 ≤ (⟨1, 28, 10, 38⟩ : HerdRow).breeders ∧
    0 ≤ (⟨1, 28, 10, 38⟩ : HerdRow).juveniles ∧
    (⟨1, 28, 10, 38⟩ : HerdRow).totalFemales =
      (⟨1, 28, 10, 38⟩ : HerdRow).breeders + (⟨1, 28, 10, 38⟩ : HerdRow).juveniles :=
  project_nonneg_total 20 10 (1/2) (1/20) 1 (by norm_num) (by norm_num)
    (by norm_num) (by norm_num) (by norm_num) (by norm_num) (by norm_num)
    [⟨0, 20, 10, 30⟩, ⟨1, 28, 10, 38⟩] project_demo_eval
    ⟨1, 28, 10, 38⟩ (by simp)

/-! ### C3: MAE and MAPE on equal-length samples -/

/-- Specification-side definition of MAE (refinement target for
`calculate_error`): the arithmetic mean of `|projected[i] - actual[i]|`
over all indices. -/
def maeSpec (projected actual : List ℚ) : ℚ :=
  ((projected.zip actual).map (fun t => |t.1 - t.2|)).sum / (projected.length : ℚ)

/-- Specification-side definition of MAPE (refinement target for
`calculate_error`): 100 times the mean of `|projected[i] - actual[i]| / actual[i]`
over the indices with `actual[i] ≠ 0`, and `0` when no actual value is
non-zero. -/
def mapeSpec (projected actual : List ℚ) : ℚ :=
  let pairs := (projected.zip actual).filter (fun t => decide (t.2 ≠ 0))
  if pairs.isEmpty then 0
  else 100 * ((pairs.map (fun t => |t.1 - t.2| / t.2)).sum / (pairs.length : ℚ))

theorem zipWith_eq_map_zip (f : ℚ → ℚ → ℚ) (p a : List ℚ) :
    List.zipWith f p a = (p.zip a).map (fun t => f t.1 t.2) := by
  induction p generalizing a with
  | nil => simp
  | cons x p ih =>
    cases a with
    | nil => simp
    | cons y a => simp [ih]

theorem mask_filter_fst (q : ℚ → Bool) (p a : List ℚ) (h : p.length = a.length) :
    ((p.zip (a.map q)).filter (fun t => t.2)).map Prod.fst
      = ((p.zip a).filter (fun t => q t.2)).map Prod.fst := by
  induction p generalizing a with
  | nil => simp
  | cons x p ih =>
    cases a with
    | nil => simp at h
    | cons y a =>
      have h2 : p.length = a.length := by simpa using h
      by_cases hq : q y <;> simp [List.filter_cons, hq, ih a h2]

theorem zip_filter_snd (q : ℚ → Bool) (p a : List ℚ) (h : p.length = a.length) :
    ((p.zip a).filter (fun t => q t.2)).map Prod.snd = a.filter q := by
  induction p generalizing a with
  | nil =>
    cases a with
    | nil => simp
    | cons y a => simp at h
  | cons x p ih =>
    cases a with
    | nil => simp at h
    | cons y a =>
      have h2 : p.length = a.length := by simpa using h
      by_cases hq : q y <;> simp [List.filter_cons, hq, ih a h2]

theorem zip_self_filter_fst (q : ℚ → Bool) (a : List ℚ) :
    ((a.zip a).filter (fun t => q t.2)).map Prod.fst = a.filter q := by
  induction a with
  | nil => simp
  | cons y a ih => by_cases hq : q y <;> simp [List.filter_cons, hq, ih]

theorem zipWith_map_same (h2 : ℚ → ℚ → ℚ) (f g : ℚ × ℚ → ℚ) (l : List (ℚ × ℚ)) :
    List.zipWith h2 (l.map f) (l.map g) = l.map (fun t => h2 (f t) (g t)) := by
  induction l with
  | nil => rfl
  | cons t l ih => simp [ih]

theorem mask_any_eq (q : ℚ → Bool) (a : List ℚ) :
    (a.map q).any id = a.any q := by
  induction a with
  | nil => rfl
  | cons y a ih => simp [ih]

/-- C3: on equal-length non-empty samples, `calculate_error` returns exactly
the MAE and MAPE of the specification: the mean absolute difference over all
indices, and 100 times the mean of `|p - a| / a` over the indices with a
non-zero actual value (0 when there is no such index). -/
theorem calculate_error_mae_mape (projected actual : List ℚ)
    (hlen : projected.length = actual.length) (hne : projected ≠ []) :
    calculate_error projected actual =
      Except.ok (some (maeSpec projected actual), some (mapeSpec projected actual)) := by
  have hsub : npSub projected actual =
      Except.ok (List.zipWith (fun x y => x - y) projected actual) := by
    unfold npSub; rw [if_pos hlen]
  have hzlen : (projected.zip actual).length = projected.length := by
    rw [List.length_zip, ← hlen, min_self]
  have hmae : npMean ((List.zipWith (fun x y => x - y) projected actual).map (fun x => |x|))
      = some (maeSpec projected actual) := by
    rw [zipWith_eq_map_zip, List.map_map]
    unfold npMean maeSpec
    rw [if_neg (by
      simp only [List.isEmpty_eq_true, List.map_eq_nil_iff]
      intro h0
      have h1 := congrArg List.length h0
      rw [hzlen] at h1
      exact hne (List.length_eq_zero.mp h1))]
    simp only [Function.comp_def, List.length_map, hzlen]
  unfold calculate_error
  simp only [hsub]
  cases hz : actual.any (fun x => decide (x ≠ 0)) with
  | false =>
    have hmask : ((actual.map (fun x => decide (x ≠ 0))).any id) = false := by
      rw [mask_any_eq]; exact hz
    rw [if_pos hmask, hmae]
    have hfil : actual.filter (fun x => decide (x ≠ 0)) = [] := by
      rw [List.filter_eq_nil_iff]
      intro x hx
      have := List.any_eq_false.mp hz x hx
      simpa using this
    have hpairs : (projected.zip actual).filter (fun t => decide (t.2 ≠ 0)) = [] := by
      have h2 := zip_filter_snd (fun x => decide (x ≠ 0)) projected actual hlen
      rw [hfil] at h2
      exact List.map_eq_nil_iff.mp h2
    unfold mapeSpec
    rw [hpairs]
    simp
  | true =>
    have hmask : ((actual.map (fun x => decide (x ≠ 0))).any id) = true := by
      rw [mask_any_eq]; exact hz
    rw [if_neg (by rw [hmask]; simp)]
    have hamlen : actual.length = (actual.map (fun x => decide (x ≠ 0))).length := by
      rw [List.length_map]
    have hpv : npMaskIndex projected (actual.map (fun x => decide (x ≠ 0))) =
        Except.ok (((projected.zip actual).filter (fun t => decide (t.2 ≠ 0))).map Prod.fst) := by
      unfold npMaskIndex
      rw [if_pos (hlen.trans hamlen)]
      exact congrArg Except.ok (mask_filter_fst (fun x => decide (x ≠ 0)) projected actual hlen)
    have hav : npMaskIndex actual (actual.map (fun x => decide (x ≠ 0))) =
        Except.ok (((projected.zip actual).filter (fun t => decide (t.2 ≠ 0))).map Prod.snd) := by
      unfold npMaskIndex
      rw [if_pos hamlen]
      refine congrArg Except.ok ?_
      rw [mask_filter_fst (fun x => decide (x ≠ 0)) actual actual rfl,
        zip_self_filter_fst (fun x => decide (x ≠ 0)) actual,
        zip_filter_snd (fun x => decide (x ≠ 0)) projected actual hlen]
    have hsub2 : npSub
        (((projected.zip actual).filter (fun t => decide (t.2 ≠ 0))).map Prod.fst)
        (((projected.zip actual).filter (fun t => decide (t.2 ≠ 0))).map Prod.snd) =
        Except.ok (((projected.zip actual).filter (fun t => decide (t.2 ≠ 0))).map
          (fun t => t.1 - t.2)) := by
      unfold npSub
      rw [if_pos (by simp)]
      exact congrArg Except.ok (zipWith_map_same (fun x y => x - y) Prod.fst Prod.snd _)
    simp only [hpv, hav, hsub2]
    rw [zipWith_map_same (fun d a => |d| / a) (fun t => t.1 - t.2) Prod.snd]
    have hpairs_ne : (projected.zip actual).filter (fun t => decide (t.2 ≠ 0)) ≠ [] := by
      intro h0
      obtain ⟨x, hx, hqx⟩ := List.any_eq_true.mp hz
      have h2 := zip_filter_snd (fun x => decide (x ≠ 0)) projected actual hlen
      rw [h0] at h2
      have : x ∈ actual.filter (fun x => decide (x ≠ 0)) := List.mem_filter.mpr ⟨hx, hqx⟩
      rw [← h2] at this
      simp at this
    have hmean2 : npMean (((projected.zip actual).filter (fun t => decide (t.2 ≠ 0))).map
        (fun t => |t.1 - t.2| / t.2)) =
        some ((((projected.zip actual).filter (fun t => decide (t.2 ≠ 0))).map
          (fun t => |t.1 - t.2| / t.2)).sum /
          (((projected.zip actual).filter (fun t => decide (t.2 ≠ 0))).length : ℚ)) := by
      unfold npMean
      rw [if_neg (by simpa using hpairs_ne)]
      rw [List.length_map]
    rw [hmae, hmean2]
    unfold mapeSpec
    rw [if_neg (by simpa using hpairs_ne)]
    simp only [Option.map_some']
    rw [mul_comm]

/-- Witness for C3: the spec example `evaluate([10,20],[8,22])` through the
theorem, with the spec-side values evaluated: MAE = 2, MAPE = 375/22 %. -/
theorem calculate_error_mae_mape_witness :
    calculate_error [10, 20] [8, 22] =
      Except.ok (some (maeSpec [10, 20] [8, 22]), some (mapeSpec [10, 20] [8, 22])) ∧
    maeSpec [10, 20] [8, 22] = 2 ∧ mapeSpec [10, 20] [8, 22] = 375/22 := by
  refine ⟨calculate_error_mae_mape [10, 20] [8, 22] rfl (by simp), ?_, ?_⟩
  · unfold maeSpec
    norm_num
  · unfold mapeSpec
    norm_num [List.filter_cons]

/-! ### C4: mismatched lengths -/

/-- Counterexample to C4 as stated: `calculate_error` does not reject every
length mismatch.  A length-1 actual array is broadcast by numpy; with
`actual = [0]` the masked branch is never reached, and
`evaluate([1,2,3],[0])` silently returns the numeric result `(2.0, 0.0)`. -/
theorem calculate_error_broadcast_counterexample :
    ([1, 2, 3] : List ℚ).length ≠ ([0] : List ℚ).length ∧
    calculate_error [1, 2, 3] [0] = Except.ok (some 2, some 0) := by
  constructor
  · simp
  · simp [calculate_error, npSub, npMean, npMaskIndex]
    norm_num

/-- C4 amended: when the two input lengths differ and neither input has
length 1 (numpy's broadcast escape hatch), `calculate_error` fails with
numpy's broadcast ValueError — the MismatchedLength failure — and never
returns a numeric result; in particular `evaluate([1,2,3],[1,2])` fails. -/
theorem calculate_error_mismatched_length (projected actual : List ℚ)
    (hlen : projected.length ≠ actual.length)
    (hp : projected.length ≠ 1) (ha : actual.length ≠ 1) :
    calculate_error projected actual = Except.error NumpyError.broadcastMismatch := by
  have hsub : npSub projected actual = Except.error NumpyError.broadcastMismatch := by
    unfold npSub
    rw [if_neg hlen, if_neg ha, if_neg hp]
  unfold calculate_error
  simp only [hsub]

/-- Witness for C4's amended theorem at the spec's example
`evaluate([1,2,3],[1,2])`. -/
theorem calculate_error_mismatched_length_witness :
    calculate_error [1, 2, 3] [1, 2] = Except.error NumpyError.broadcastMismatch :=
  calculate_error_mismatched_length [1, 2, 3] [1, 2] (by simp) (by simp) (by simp)

/-! ### C6: the empty sample -/

/-- Counterexample to C6 as stated: on two empty sequences `calculate_error`
neither fails nor returns MAE = 0.0 — it returns the undefined `np.mean` of
an empty array (NaN, modelled `none`) as MAE, alongside MAPE = 0.0. -/
theorem calculate_error_empty_counterexample :
    calculate_error ([] : List ℚ) [] = Except.ok (none, some 0) ∧
    (none : Option ℚ) ≠ some 0 := by
  constructor
  · simp [calculate_error, npSub, npMean]
  · simp

/-- C6 amended: on two empty sequences `calculate_error` raises no error and
returns MAPE = 0.0, but its MAE is the undefined empty mean (`nan`), not a
numeric value. -/
theorem calculate_error_empty_nan :
    calculate_error ([] : List ℚ) [] = Except.ok (none, some 0) := by
  simp [calculate_error, npSub, npMean]

/-! ### C9: animal status after Death and Sale events -/

/-- C9 (code bug evidence): logging a 'Death' or a 'Sale' event writes the
raw event type into the status column, producing 'Death' / 'Sale' — values
outside the schema's documented status set {Active, Sold, Dead}, whose
matching members would be 'Dead' / 'Sold'; the other animal's status is
left unchanged. -/
theorem log_event_status_outside_domain :
    ((log_event ⟨[⟨"UEMBU-001", "Female", "2024-01-01", "Active", none, "N/A"⟩,
        ⟨"UEMBU-002", "Female", "2024-03-01", "Active", none, "N/A"⟩], []⟩
        "UEMBU-001" "Death" "2025-01-01" "Illness").cows.map Cow.status
      = ["Death", "Active"]) ∧
    ((log_event ⟨[⟨"UEMBU-003", "Female", "2024-01-01", "Active", none, "N/A"⟩], []⟩
        "UEMBU-003" "Sale" "2025-01-01" "Sold at market").cows.map Cow.status
      = ["Sale"]) ∧
    "Death" ∉ allowedStatuses ∧ "Sale" ∉ allowedStatuses ∧
    "Dead" ∈ allowedStatuses ∧ "Sold" ∈ allowedStatuses := by
  refine ⟨?_, ?_, by decide, by decide, by decide, by decide⟩ <;> rfl

/-! ### C10: add_new_cow -/

/-- C10: `add_new_cow` inserts the new animal with status 'Active' and
returns True when no stored cow carries the requested id; when one does,
the PRIMARY KEY violation makes it return False with the stored records
unchanged — no partial insert, no overwrite. -/
theorem add_new_cow_spec (db : CattleDB) (cid sex bdate : String)
    (mid : Option String) (breed : String) :
    ((∃ c ∈ db.cows, c.cow_id = cid) →
      add_new_cow db cid sex bdate mid breed = (db, false)) ∧
    ((∀ c ∈ db.cows, c.cow_id ≠ cid) →
      add_new_cow db cid sex bdate mid breed =
        ({ db with cows := db.cows ++ [⟨cid, sex, bdate, "Active", mid, breed⟩] }, true)) := by
  constructor
  · rintro ⟨c, hc, hid⟩
    have h : db.cows.any (fun c => c.cow_id = cid) = true :=
      List.any_eq_true.mpr ⟨c, hc, by simp [hid]⟩
    unfold add_new_cow
    rw [if_pos h]
  · intro h
    have hfalse : db.cows.any (fun c => c.cow_id = cid) = false := by
      rw [List.any_eq_false]
      intro c hc
      simp [h c hc]
    unfold add_new_cow
    rw [if_neg (by rw [hfalse]; simp)]

/-- Witness for C10: a duplicate insert is refused and leaves the single
stored record in place; an insert with a fresh id appends an 'Active' row
and returns True. -/
theorem add_new_cow_spec_witness :
    add_new_cow ⟨[⟨"A1", "Female", "2024-01-01", "Active", none, "N/A"⟩], []⟩
        "A1" "Female" "2024-02-02" none "N/A" =
      (⟨[⟨"A1", "Female", "2024-01-01", "Active", none, "N/A"⟩], []⟩, false) ∧
    add_new_cow ⟨[], []⟩ "A2" "Female" "2024-02-02" none "N/A" =
      (⟨[⟨"A2", "Female", "2024-02-02", "Active", none, "N/A"⟩], []⟩, true) := by
  constructor
  · exact (add_new_cow_spec ⟨[⟨"A1", "Female", "2024-01-01", "Active", none, "N/A"⟩], []⟩
      "A1" "Female" "2024-02-02" none "N/A").1
      ⟨⟨"A1", "Female", "2024-01-01", "Active", none, "N/A"⟩, by simp, rfl⟩
  · exact (add_new_cow_spec ⟨[], []⟩ "A2" "Female" "2024-02-02" none "N/A").2
      (by simp)
